import Mathlib

/-
Verification of the o5-github-lambda webhook pipeline.

Shallow embedding of the webhook worker in internal/github/webhook.go:
nullable Go pointers become Option, the (response, error) pair returned by
the handler becomes Except (an `Except.error` is surfaced by the Lambda
runtime as a 500), and each external collaborator (mime parsing, base64,
go-github payload validation / webhook parsing, o5msg message wrapping)
is an abstract capability carried in an `Externals` record. The list of
publisher sink identifiers actually invoked is threaded through as an
explicit trace so that claims about which sinks were called are statable.
-/

namespace O5Gh

/-- Go: events.APIGatewayV2HTTPResponse (StatusCode, Body). -/
structure APIGatewayV2HTTPResponse where
  statusCode : Nat
  body : String
deriving DecidableEq, Repr

/-- Go: events.APIGatewayV2HTTPRequest (Headers, Body, IsBase64Encoded). -/
structure Request where
  headers : List (String × String)
  body : String
  isBase64Encoded : Bool
deriving DecidableEq, Repr

/-- Go: github.User (only the fields this repo reads: Login, Name). -/
structure User where
  login : Option String
  name : Option String
deriving DecidableEq, Repr

/-- Go: github.PushEventRepository (fields read: Owner, Name). -/
structure PushEventRepository where
  owner : Option User
  name : Option String
deriving DecidableEq, Repr

/-- Go: github.Repository (fields read: Owner, Name). -/
structure Repository where
  owner : Option User
  name : Option String
deriving DecidableEq, Repr

/-- Go: github.PushEvent (fields read: Ref, Before, After, Repo). -/
structure PushEvent where
  ref : Option String
  before : Option String
  after : Option String
  repo : Option PushEventRepository
deriving DecidableEq, Repr

/-- Go: github.CheckSuite (fields read: HeadBranch, BeforeSHA, AfterSHA). -/
structure CheckSuite where
  headBranch : Option String
  beforeSHA : Option String
  afterSHA : Option String
deriving DecidableEq, Repr

/-- Go: github.CheckRun (fields read: Name, ID, CheckSuite). -/
structure CheckRun where
  name : Option String
  id : Option Int
  checkSuite : Option CheckSuite
deriving DecidableEq, Repr

/-- Go: github.CheckRunEvent (fields read: Action, Repo, CheckRun). -/
structure CheckRunEvent where
  action : Option String
  repo : Option Repository
  checkRun : Option CheckRun
deriving DecidableEq, Repr

/-- Go: github_tpb.PushMessage literal built in handlePushEvent. -/
structure PushMessage where
  deliveryId : String
  before : String
  after : String
  ref : String
  repo : String
  owner : String
deriving DecidableEq, Repr

/-- Go: github_tpb.CheckRunMessage literal built in handleCheckRunEvent. -/
structure CheckRunMessage where
  deliveryId : String
  action : String
  owner : String
  repo : String
  checkRunName : String
  checkRunId : Int
  ref : String
  before : String
  after : String
deriving DecidableEq, Repr

/-- The two o5 message kinds this worker emits. -/
inductive O5Message where
  | push (m : PushMessage)
  | checkRun (m : CheckRunMessage)
deriving DecidableEq, Repr

/-- The o5msg wire envelope as far as this worker touches it:
WrapMessage assigns MessageId, the worker stamps SourceApp/SourceEnv. -/
structure WireMessage where
  messageId : String
  sourceApp : String
  sourceEnv : String
  message : O5Message
deriving DecidableEq, Repr

/-- Go: awsmsg.Publisher interface (PublisherID, Publish).  Publish
returning `none` models a nil error, `some e` models error e. -/
structure Publisher where
  PublisherID : String
  Publish : WireMessage → Option String

/-- Go: github.SourceConfig. -/
structure SourceConfig where
  sourceApp : String
  sourceEnv : String
deriving DecidableEq, Repr

/-- Go: github.WebhookWorker. -/
structure WebhookWorker where
  publishers : List Publisher
  secretToken : String
  source : SourceConfig

/-- Result of decoding a webhook payload: go-github ParseWebHook either
yields a typed event the switch handles, or some other event value whose
formatted description feeds the "unhandled event type" body. -/
inductive WebhookEvent where
  | push (e : PushEvent)
  | checkRun (e : CheckRunEvent)
  | other (description : String)

/-- External collaborators of the handler, modelled as opaque
capabilities: mime.ParseMediaType, base64.StdEncoding.DecodeString,
github.ValidatePayloadFromBody (contentType, body, signature, secret),
github.ParseWebHook and o5msg.WrapMessage. -/
structure Externals where
  parseMediaType : String → Except String String
  base64Decode : String → Except String String
  validatePayload : String → String → String → String → Except String String
  parseWebHook : String → String → Except String WebhookEvent
  wrapMessage : O5Message → Except String WireMessage

instance {ε α : Type} [DecidableEq ε] [DecidableEq α] : DecidableEq (Except ε α) := fun a b =>
  match a, b with
  | Except.error e, Except.error f => decidable_of_iff (e = f) (by simp)
  | Except.ok x, Except.ok y => decidable_of_iff (x = y) (by simp)
  | Except.error _, Except.ok _ => isFalse (fun hc => Except.noConfusion hc)
  | Except.ok _, Except.error _ => isFalse (fun hc => Except.noConfusion hc)

/-- The result of one handler invocation: the Go (response, error) pair
as an Except, plus the trace of publisher sink IDs whose Publish was
actually invoked, in invocation order. -/
structure HandlerOutcome where
  result : Except String APIGatewayV2HTTPResponse
  published : List String
deriving DecidableEq, Repr

/-- Go: const emptyCommit (webhook.go line 215). -/
def emptyCommit : String := "0000000000000000000000000000000000000000"

/-- go-github constant: the SHA-256 signature header name. -/
def SHA256SignatureHeader : String := "X-Hub-Signature-256"

/-- go-github constant: the SHA-1 signature header name. -/
def SHA1SignatureHeader : String := "X-Hub-Signature"

/-- go-github constant: the delivery-identifier header name. -/
def DeliveryIDHeader : String := "X-GitHub-Delivery"

/-- ASCII lower-casing of one character (header keys are ASCII). -/
def lowerChar (c : Char) : Char :=
  if 65 ≤ c.toNat ∧ c.toNat ≤ 90 then Char.ofNat (c.toNat + 32) else c

/-- ASCII lower-casing of a string, by structural recursion so that it
evaluates inside the kernel. -/
def lowerStr (s : String) : String :=
  String.mk (s.data.map lowerChar)

/-- Case-insensitive header lookup, "" when absent: models building an
http.Header from the request's header map and calling Get (webhook.go
lines 42-45 plus net/http canonicalised lookup). -/
def headerGet (headers : List (String × String)) (key : String) : String :=
  match headers.find? (fun kv => lowerStr kv.fst = lowerStr key) with
  | some kv => kv.snd
  | none => ""

/-- Go webhook.go lines 47-50: take the SHA-256 signature header, fall
back to the SHA-1 signature header only when it is empty. -/
def selectSignature (headers : List (String × String)) : String :=
  let s := headerGet headers SHA256SignatureHeader
  if s = "" then headerGet headers SHA1SignatureHeader else s

/-- Go webhook.go lines 65-71: the body bytes, base64-decoded when the
request says so. -/
def decodedBody (ext : Externals) (request : Request) : Except String String :=
  if request.isBase64Encoded then ext.base64Decode request.body
  else Except.ok request.body

/-- Go: validateRepo1 (webhook.go lines 238-252), the push-event repo
checks.  Note the error strings really say check_run event in the
source. -/
def validateRepo1 (repo : Option PushEventRepository) : Option String :=
  match repo with
  | none => some "nil 'repo' on check_run event"
  | some r =>
    match r.owner with
    | none => some "nil 'repo.owner' on check_run event"
    | some owner =>
      match owner.name with
      | none => some "nil 'repo.owner.name' on check_run event"
      | some _ =>
        match r.name with
        | none => some "nil 'repo.name' on check_run event"
        | some _ => none

/-- Go: validateRepo (webhook.go lines 254-268), the check-run repo
checks (Owner.Login rather than Owner.Name). -/
def validateRepo (repo : Option Repository) : Option String :=
  match repo with
  | none => some "nil 'repo' on check_run event"
  | some r =>
    match r.owner with
    | none => some "nil 'repo.owner' on check_run event"
    | some owner =>
      match owner.login with
      | none => some "nil 'repo.owner.login' on check_run event"
      | some _ =>
        match r.name with
        | none => some "nil 'repo.name' on check_run event"
        | some _ => none

/-- Go: validatePushEvent (webhook.go lines 217-236). -/
def validatePushEvent (event : PushEvent) : Option String :=
  match event.ref with
  | none => some "nil 'ref' on push event"
  | some _ =>
    match validateRepo1 event.repo with
    | some err => some err
    | none =>
      match event.after with
      | none => some "nil 'after' on push event"
      | some _ =>
        match event.before with
        | none => some "nil 'before' on push event"
        | some _ => none

/-- Go: validateCheckRunEvent (webhook.go lines 127-158). -/
def validateCheckRunEvent (event : CheckRunEvent) : Option String :=
  match event.action with
  | none => some "nil 'action' on check_run event"
  | some _ =>
    match validateRepo event.repo with
    | some err => some err
    | none =>
      match event.checkRun with
      | none => some "nil 'check_run' on check_run event"
      | some cr =>
        match cr.name with
        | none => some "nil 'check_run.name' on check_run event"
        | some _ =>
          match cr.id with
          | none => some "nil 'check_run.id' on check_run event"
          | some _ =>
            match cr.checkSuite with
            | none => some "nil 'check_run.check_suite' on check_run event"
            | some cs =>
              match cs.headBranch with
              | none => some "nil 'check_run.check_suite.head_branch' on check_run event"
              | some _ =>
                match cs.beforeSHA with
                | none => some "nil 'check_run.check_suite.before_sha' on check_run event"
                | some _ =>
                  match cs.afterSHA with
                  | none => some "nil 'check_run.check_suite.after_sha' on check_run event"
                  | some _ => none

/-- Modelled from the spec: the ordered table of required check-run
field paths and presence predicates of spec section 4.3 (CheckRun row).
Used only to state the validation-order claim as a refinement of the
open-coded nil checks. -/
def specCheckRunFieldOrder : List (String × (CheckRunEvent → Bool)) :=
  [("action", fun e => e.action.isSome),
   ("repo", fun e => e.repo.isSome),
   ("repo.owner", fun e => (e.repo.bind (fun r => r.owner)).isSome),
   ("repo.owner.login", fun e =>
      ((e.repo.bind (fun r => r.owner)).bind (fun o => o.login)).isSome),
   ("repo.name", fun e => (e.repo.bind (fun r => r.name)).isSome),
   ("check_run", fun e => e.checkRun.isSome),
   ("check_run.name", fun e => (e.checkRun.bind (fun c => c.name)).isSome),
   ("check_run.id", fun e => (e.checkRun.bind (fun c => c.id)).isSome),
   ("check_run.check_suite", fun e => (e.checkRun.bind (fun c => c.checkSuite)).isSome),
   ("check_run.check_suite.head_branch", fun e =>
      ((e.checkRun.bind (fun c => c.checkSuite)).bind (fun s => s.headBranch)).isSome),
   ("check_run.check_suite.before_sha", fun e =>
      ((e.checkRun.bind (fun c => c.checkSuite)).bind (fun s => s.beforeSHA)).isSome),
   ("check_run.check_suite.after_sha", fun e =>
      ((e.checkRun.bind (fun c => c.checkSuite)).bind (fun s => s.afterSHA)).isSome)]

/-- The pointer dereferences of the github_tpb.PushMessage literal
(webhook.go lines 177-184): `none` models a nil-pointer panic. -/
def buildPushMessage (deliveryID : String) (event : PushEvent) : Option PushMessage := do
  let before ← event.before
  let after ← event.after
  let ref ← event.ref
  let repo ← event.repo
  let repoName ← repo.name
  let owner ← repo.owner
  let ownerName ← owner.name
  pure ⟨deliveryID, before, after, ref, repoName, ownerName⟩

/-- The pointer dereferences of the github_tpb.CheckRunMessage literal
(webhook.go lines 112-122): `none` models a nil-pointer panic. -/
def buildCheckRunMessage (deliveryID : String) (event : CheckRunEvent) : Option CheckRunMessage := do
  let action ← event.action
  let repo ← event.repo
  let owner ← repo.owner
  let login ← owner.login
  let repoName ← repo.name
  let cr ← event.checkRun
  let crName ← cr.name
  let crId ← cr.id
  let cs ← cr.checkSuite
  let headBranch ← cs.headBranch
  let beforeSHA ← cs.beforeSHA
  let afterSHA ← cs.afterSHA
  pure ⟨deliveryID, action, login, repoName, crName, crId,
        "refs/heads/" ++ headBranch, beforeSHA, afterSHA⟩

/-- Go webhook.go lines 196-197: stamp SourceApp/SourceEnv onto the wire
message before the fanout. -/
def stampSource (ww : WebhookWorker) (wire : WireMessage) : WireMessage :=
  { wire with sourceApp := ww.source.sourceApp, sourceEnv := ww.source.sourceEnv }

/-- Outcome of the Go publish loop (webhook.go lines 201-206): which
sinks were invoked, the success lines accumulated, and the first error. -/
structure FanoutResult where
  invoked : List String
  output : List String
  failure : Option String
deriving DecidableEq, Repr

/-- Go webhook.go lines 201-206: the for-loop over ww.publishers;
a failing Publish aborts the loop with that error. -/
def publishLoop (wire : WireMessage) : List Publisher → FanoutResult
  | [] => ⟨[], [], none⟩
  | p :: rest =>
    match p.Publish wire with
    | some err => ⟨[p.PublisherID], [], some err⟩
    | none =>
      let r := publishLoop wire rest
      ⟨p.PublisherID :: r.invoked,
       ("Published to " ++ p.PublisherID) :: r.output,
       r.failure⟩

/-- Go: (ww *WebhookWorker).publish (webhook.go lines 189-213). -/
def publish (ww : WebhookWorker) (ext : Externals) (msg : O5Message) : HandlerOutcome :=
  match ext.wrapMessage msg with
  | Except.error e => ⟨Except.error e, []⟩
  | Except.ok wireMessage =>
    let stamped := stampSource ww wireMessage
    let r := publishLoop stamped ww.publishers
    match r.failure with
    | some err => ⟨Except.error err, r.invoked⟩
    | none =>
      ⟨Except.ok ⟨200, "HOOK OK\n" ++ String.intercalate "\n"
          (("O5 Message ID: " ++ stamped.messageId) :: r.output)⟩,
       r.invoked⟩

/-- Go: (ww *WebhookWorker).handlePushEvent (webhook.go lines 160-187). -/
def handlePushEvent (ww : WebhookWorker) (ext : Externals) (deliveryID : String)
    (event : PushEvent) : HandlerOutcome :=
  match validatePushEvent event with
  | some err => ⟨Except.ok ⟨400, err⟩, []⟩
  | none =>
    match event.after with
    | none => ⟨Except.error "nil pointer dereference", []⟩
    | some after =>
      if after = emptyCommit then
        ⟨Except.ok ⟨200, "push event has empty after commit - no event created"⟩, []⟩
      else
        match buildPushMessage deliveryID event with
        | none => ⟨Except.error "nil pointer dereference", []⟩
        | some msg => publish ww ext (O5Message.push msg)

/-- Go: (ww *WebhookWorker).handleCheckRunEvent (webhook.go lines 104-125). -/
def handleCheckRunEvent (ww : WebhookWorker) (ext : Externals) (deliveryID : String)
    (event : CheckRunEvent) : HandlerOutcome :=
  match validateCheckRunEvent event with
  | some err => ⟨Except.ok ⟨400, err⟩, []⟩
  | none =>
    match buildCheckRunMessage deliveryID event with
    | none => ⟨Except.error "nil pointer dereference", []⟩
    | some msg => publish ww ext (O5Message.checkRun msg)

/-- Go: (ww *WebhookWorker).HandleLambda (webhook.go lines 41-102). -/
def HandleLambda (ww : WebhookWorker) (ext : Externals) (request : Request) : HandlerOutcome :=
  let signature := selectSignature request.headers
  let deliveryID := headerGet request.headers DeliveryIDHeader
  if deliveryID = "" then
    ⟨Except.ok ⟨400, "missing delivery ID"⟩, []⟩
  else
    match ext.parseMediaType (headerGet request.headers "Content-Type") with
    | Except.error e =>
      ⟨Except.error ("parse media type from '" ++
          headerGet request.headers "Content-Type" ++ "': " ++ e), []⟩
    | Except.ok contentType =>
      match decodedBody ext request with
      | Except.error e => ⟨Except.error ("decoding body: " ++ e), []⟩
      | Except.ok bodyBytes =>
        match ext.validatePayload contentType bodyBytes signature ww.secretToken with
        | Except.error e => ⟨Except.error ("validating payload: " ++ e), []⟩
        | Except.ok verifiedPayload =>
          match ext.parseWebHook (headerGet request.headers "X-GitHub-Event") verifiedPayload with
          | Except.error e => ⟨Except.error ("parsing webhook: " ++ e), []⟩
          | Except.ok anyEvent =>
            match anyEvent with
            | WebhookEvent.push event => handlePushEvent ww ext deliveryID event
            | WebhookEvent.checkRun event => handleCheckRunEvent ww ext deliveryID event
            | WebhookEvent.other desc =>
              ⟨Except.ok ⟨400, "unhandled event type " ++ desc⟩, []⟩

/-! Message-ID derivation.  The repository derives the push message id as
`uuid.NewSHA1(pushNamespace, []byte(fmt.Sprintf("%s/%s", *event.Ref, *event.After))).String()`.
`uuid.NewSHA1` is the google/uuid version-5 derivation: SHA-1 over the
namespace bytes followed by the name bytes, truncated to 16 bytes with
version and variant bits forced.  SHA-1 is implemented below on `Nat`
bytes/words with explicit reduction modulo 2^32. -/

/-- Rotate a 32-bit word (as a Nat below 2^32) left by n bits. -/
def rotl32 (n x : Nat) : Nat :=
  ((x <<< n) ||| (x >>> (32 - n))) % 4294967296

/-- UTF-8 encoding of one code point. -/
def utf8Bytes (c : Nat) : List Nat :=
  if c < 128 then [c]
  else if c < 2048 then
    [192 ||| (c >>> 6), 128 ||| (c &&& 63)]
  else if c < 65536 then
    [224 ||| (c >>> 12), 128 ||| ((c >>> 6) &&& 63), 128 ||| (c &&& 63)]
  else
    [240 ||| (c >>> 18), 128 ||| ((c >>> 12) &&& 63),
     128 ||| ((c >>> 6) &&& 63), 128 ||| (c &&& 63)]

/-- The UTF-8 bytes of a string, as Nats. -/
def strBytes (s : String) : List Nat :=
  (s.data.map (fun ch => utf8Bytes ch.toNat)).flatten

/-- Big-endian 8-byte encoding of a 64-bit length. -/
def word64BE (n : Nat) : List Nat :=
  [(n >>> 56) % 256, (n >>> 48) % 256, (n >>> 40) % 256, (n >>> 32) % 256,
   (n >>> 24) % 256, (n >>> 16) % 256, (n >>> 8) % 256, n % 256]

/-- SHA-1 padding: append 0x80, zero bytes to 56 mod 64, then the
big-endian 64-bit bit length. -/
def sha1Pad (msg : List Nat) : List Nat :=
  msg ++ [128] ++ List.replicate ((119 - msg.length % 64) % 64) 0
      ++ word64BE (msg.length * 8)

/-- Big-endian 32-bit words from a byte list (length a multiple of 4). -/
def words32 : List Nat → List Nat
  | a :: b :: c :: d :: rest => (((a * 256 + b) * 256 + c) * 256 + d) :: words32 rest
  | _ => []

/-- One step of the SHA-1 message-schedule extension, on the reversed
prefix of the schedule. -/
def extendStep (rw : List Nat) : Nat :=
  rotl32 1 ((rw.getD 2 0) ^^^ (rw.getD 7 0) ^^^ (rw.getD 13 0) ^^^ (rw.getD 15 0))

/-- Extend the (reversed) 16-word schedule by n further words. -/
def extendWords : Nat → List Nat → List Nat
  | 0, rw => rw
  | n + 1, rw => extendWords n (extendStep rw :: rw)

/-- The 80-word SHA-1 message schedule of one 16-word chunk. -/
def sha1Schedule (chunk : List Nat) : List Nat :=
  (extendWords 64 chunk.reverse).reverse

/-- The SHA-1 compression rounds, indexed from i, over the remaining
schedule words. -/
def sha1Rounds : Nat → List Nat → Nat × Nat × Nat × Nat × Nat → Nat × Nat × Nat × Nat × Nat
  | _, [], st => st
  | i, w :: ws, (a, b, c, d, e) =>
    let f :=
      if i < 20 then (b &&& c) ||| ((b ^^^ 4294967295) &&& d)
      else if i < 40 then b ^^^ c ^^^ d
      else if i < 60 then (b &&& c) ||| (b &&& d) ||| (c &&& d)
      else b ^^^ c ^^^ d
    let k :=
      if i < 20 then 1518500249
      else if i < 40 then 1859775393
      else if i < 60 then 2400959708
      else 3395469782
    let temp := (rotl32 5 a + f + e + k + w) % 4294967296
    sha1Rounds (i + 1) ws (temp, a, rotl32 30 b, c, d)

/-- Process one 16-word chunk into the running hash state. -/
def sha1Chunk (h : Nat × Nat × Nat × Nat × Nat) (chunk : List Nat) : Nat × Nat × Nat × Nat × Nat :=
  let (a, b, c, d, e) := sha1Rounds 0 (sha1Schedule chunk) h
  let (h0, h1, h2, h3, h4) := h
  ((h0 + a) % 4294967296, (h1 + b) % 4294967296, (h2 + c) % 4294967296,
   (h3 + d) % 4294967296, (h4 + e) % 4294967296)

/-- Split a word list into 16-word chunks. -/
def chunks16 : List Nat → List (List Nat)
  | w0 :: w1 :: w2 :: w3 :: w4 :: w5 :: w6 :: w7 ::
    w8 :: w9 :: w10 :: w11 :: w12 :: w13 :: w14 :: w15 :: rest =>
    [w0, w1, w2, w3, w4, w5, w6, w7, w8, w9, w10, w11, w12, w13, w14, w15]
      :: chunks16 rest
  | _ => []

/-- Big-endian bytes of a 32-bit word. -/
def word32Bytes (w : Nat) : List Nat :=
  [(w >>> 24) % 256, (w >>> 16) % 256, (w >>> 8) % 256, w % 256]

/-- SHA-1 digest (20 bytes) of a byte list. -/
def sha1 (msg : List Nat) : List Nat :=
  let st := (chunks16 (words32 (sha1Pad msg))).foldl sha1Chunk
    (1732584193, 4023233417, 2562383102, 271733878, 3285377520)
  word32Bytes st.1 ++ word32Bytes st.2.1 ++ word32Bytes st.2.2.1 ++
    word32Bytes st.2.2.2.1 ++ word32Bytes st.2.2.2.2

/-- google/uuid NewSHA1: SHA-1 of namespace bytes followed by the name
bytes, truncated to 16 bytes, version nibble forced to 5 and variant
bits to 10. -/
def uuidNewSHA1 (space data : List Nat) : List Nat :=
  let h := (sha1 (space ++ data)).take 16
  let h := h.set 6 (((h.getD 6 0) &&& 15) ||| 80)
  h.set 8 (((h.getD 8 0) &&& 63) ||| 128)

/-- Lower-case hex digit. -/
def hexDigit (n : Nat) : Char :=
  if n < 10 then Char.ofNat (48 + n) else Char.ofNat (87 + n)

/-- Two-digit lower-case hex of a byte. -/
def byteHex (b : Nat) : String :=
  String.mk [hexDigit ((b / 16) % 16), hexDigit (b % 16)]

/-- Canonical 8-4-4-4-12 string form of a 16-byte UUID. -/
def uuidToString (u : List Nat) : String :=
  String.join ((u.take 4).map byteHex) ++ "-" ++
  String.join (((u.drop 4).take 2).map byteHex) ++ "-" ++
  String.join (((u.drop 6).take 2).map byteHex) ++ "-" ++
  String.join (((u.drop 8).take 2).map byteHex) ++ "-" ++
  String.join ((u.drop 10).map byteHex)

/-- Go: var pushNamespace = uuid.MustParse("B15B01C2-0228-49E7-8432-EA17E5A1B69C"),
as its 16 bytes. -/
def pushNamespace : List Nat :=
  [0xB1, 0x5B, 0x01, 0xC2, 0x02, 0x28, 0x49, 0xE7,
   0x84, 0x32, 0xEA, 0x17, 0xE5, 0xA1, 0xB6, 0x9C]

/-- Go: pushID derivation for a push event,
uuid.NewSHA1(pushNamespace, []byte(fmt.Sprintf("%s/%s", ref, after))).String(). -/
def pushEventID (ref after : String) : String :=
  uuidToString (uuidNewSHA1 pushNamespace (strBytes (ref ++ "/" ++ after)))

/-- The push message id as derived from a decoded push event
(dereferencing Ref and After, which validation guarantees non-nil). -/
def pushMessageIdOfEvent (event : PushEvent) : String :=
  pushEventID (event.ref.getD "") (event.after.getD "")

set_option maxRecDepth 100000 in
/-- Sanity check of the SHA-1 embedding against the standard test
vector SHA1("abc") = a9993e364706816aba3e25717850c26c9cd0d89d. -/
theorem sha1_abc_test_vector :
    sha1 (strBytes "abc") =
      [0xA9, 0x99, 0x3E, 0x36, 0x47, 0x06, 0x81, 0x6A, 0xBA, 0x3E,
       0x25, 0x71, 0x78, 0x50, 0xC2, 0x6C, 0x9C, 0xD0, 0xD8, 0x9D] := by
  decide

set_option maxRecDepth 100000 in
/-- Sanity check of the version-5 UUID derivation against the well-known
value of UUIDv5(DNS namespace, "www.example.com"). -/
theorem uuid_v5_dns_test_vector :
    uuidToString (uuidNewSHA1
      [0x6B, 0xA7, 0xB8, 0x10, 0x9D, 0xAD, 0x11, 0xD1,
       0x80, 0xB4, 0x00, 0xC0, 0x4F, 0xD4, 0x30, 0xC8]
      (strBytes "www.example.com")) = "2ed6657d-e927-568b-95e1-2665a8aea6a2" := by
  decide

/-- Helper: a run of all-succeeding publishers yields the full invoked
trace, one success line per sink, and no failure. -/
theorem publishLoop_all_ok (w : WireMessage) (ps : List Publisher)
    (h : ∀ q ∈ ps, q.Publish w = none) :
    publishLoop w ps =
      ⟨ps.map Publisher.PublisherID,
       ps.map (fun p => "Published to " ++ p.PublisherID), none⟩ := by
  induction ps with
  | nil => rfl
  | cons p rest ih =>
    have hp : p.Publish w = none := h p (List.mem_cons_self p rest)
    have hr := ih (fun q hq => h q (List.mem_cons_of_mem p hq))
    simp [publishLoop, hp, hr]

/-- Helper: an all-succeeding prefix of the publisher list passes
through to the rest of the loop, accumulating its trace and output. -/
theorem publishLoop_append (w : WireMessage) (ps1 rest : List Publisher)
    (h : ∀ q ∈ ps1, q.Publish w = none) :
    publishLoop w (ps1 ++ rest) =
      ⟨ps1.map Publisher.PublisherID ++ (publishLoop w rest).invoked,
       ps1.map (fun p => "Published to " ++ p.PublisherID) ++ (publishLoop w rest).output,
       (publishLoop w rest).failure⟩ := by
  induction ps1 with
  | nil => rfl
  | cons p t ih =>
    have hp : p.Publish w = none := h p (List.mem_cons_self p t)
    have ht := ih (fun q hq => h q (List.mem_cons_of_mem p hq))
    simp [publishLoop, hp, ht]

/-- C1: a push event that passes validation and whose after field is the
40-zero deletion sentinel is answered with a 200 skip response, and no
publisher sink is invoked. -/
theorem push_deletion_sentinel_acknowledged_without_publish
    (ww : WebhookWorker) (ext : Externals) (d : String) (e : PushEvent)
    (hv : validatePushEvent e = none) (ha : e.after = some emptyCommit) :
    handlePushEvent ww ext d e =
      ⟨Except.ok ⟨200, "push event has empty after commit - no event created"⟩, []⟩ := by
  simp [handlePushEvent, hv, ha]

theorem push_deletion_sentinel_acknowledged_without_publish_witness :
    handlePushEvent ⟨[⟨"sns", fun _ => none⟩], "secret", ⟨"app", "env"⟩⟩
      ⟨fun _ => Except.ok "", fun s => Except.ok s, fun _ _ _ _ => Except.ok "",
       fun _ _ => Except.error "unused", fun _ => Except.error "unused"⟩
      "d-1"
      ⟨some "refs/heads/main", some "aaa",
       some "0000000000000000000000000000000000000000",
       some ⟨some ⟨none, some "o"⟩, some "r"⟩⟩ =
      ⟨Except.ok ⟨200, "push event has empty after commit - no event created"⟩, []⟩ :=
  push_deletion_sentinel_acknowledged_without_publish _ _ _ _ rfl rfl

/-- C2: the fanout is ordered and fail-fast: with an all-succeeding
prefix and then a failing sink, the failing sink's error aborts the
whole publish with an error result (no success response), and no later
sink is invoked — the invocation trace is exactly the prefix plus the
failing sink. -/
theorem publish_fanout_fail_fast
    (ww : WebhookWorker) (ext : Externals) (msg : O5Message) (wire : WireMessage)
    (ps1 : List Publisher) (p : Publisher) (ps2 : List Publisher) (err : String)
    (hps : ww.publishers = ps1 ++ p :: ps2)
    (hw : ext.wrapMessage msg = Except.ok wire)
    (hok : ∀ q ∈ ps1, q.Publish (stampSource ww wire) = none)
    (hp : p.Publish (stampSource ww wire) = some err) :
    publish ww ext msg =
      ⟨Except.error err, ps1.map Publisher.PublisherID ++ [p.PublisherID]⟩ := by
  have hfail : publishLoop (stampSource ww wire) (p :: ps2) =
      ⟨[p.PublisherID], [], some err⟩ := by
    simp [publishLoop, hp]
  have hloop := publishLoop_append (stampSource ww wire) ps1 (p :: ps2) hok
  rw [hfail] at hloop
  simp [publish, hw, hps, hloop]

theorem publish_fanout_fail_fast_witness :
    publish
      ⟨[⟨"sns", fun _ => none⟩, ⟨"bus", fun _ => some "boom"⟩, ⟨"extra", fun _ => none⟩],
       "secret", ⟨"app", "env"⟩⟩
      ⟨fun _ => Except.ok "", fun s => Except.ok s, fun _ _ _ _ => Except.ok "",
       fun _ _ => Except.error "unused",
       fun m => Except.ok ⟨"mid-1", "", "", m⟩⟩
      (O5Message.push ⟨"d-1", "aaa", "bbb", "refs/heads/main", "r", "o"⟩) =
      ⟨Except.error "boom", ["sns", "bus"]⟩ :=
  publish_fanout_fail_fast _ _ _
    ⟨"mid-1", "", "", O5Message.push ⟨"d-1", "aaa", "bbb", "refs/heads/main", "r", "o"⟩⟩
    [⟨"sns", fun _ => none⟩] ⟨"bus", fun _ => some "boom"⟩ [⟨"extra", fun _ => none⟩]
    "boom" rfl rfl
    (by intro q hq; cases hq with
        | head => rfl
        | tail _ h => cases h)
    rfl

/-- C3 (code bug): at a push event whose only missing field is
repo.owner.name, the source's validation message labels it a check_run
event ("nil 'repo.owner.name' on check_run event"), not a push event as
the spec states — validateRepo1 carries copy-pasted check_run strings. -/
theorem push_repo_validation_message_at_failing_input :
    validatePushEvent
      ⟨some "refs/heads/main", some "aaa", some "bbb",
       some ⟨some ⟨some "login", none⟩, some "r"⟩⟩ =
      some "nil 'repo.owner.name' on check_run event" := rfl

/-- C4: the push message identifier is a deterministic function of the
(ref, afterSHA) pair — two push events agreeing on ref and after map to
the identical message id, whatever their other fields. -/
theorem push_message_id_deterministic (e1 e2 : PushEvent)
    (href : e1.ref = e2.ref) (hafter : e1.after = e2.after) :
    pushMessageIdOfEvent e1 = pushMessageIdOfEvent e2 := by
  simp [pushMessageIdOfEvent, href, hafter]

theorem push_message_id_deterministic_witness :
    pushMessageIdOfEvent
      ⟨some "refs/heads/main", some "aaa", some "bbb",
       some ⟨some ⟨none, some "o"⟩, some "r"⟩⟩ =
    pushMessageIdOfEvent
      ⟨some "refs/heads/main", some "ccc", some "bbb", none⟩ :=
  push_message_id_deterministic _ _ rfl rfl

/-- C5 counterexample: at a concrete request whose signature check
fails, HandleLambda returns a Go error (Lambda 500), not a 400-status
response value as the claim states. -/
theorem signature_mismatch_returns_error_not_400 :
    HandleLambda ⟨[], "secret", ⟨"app", "env"⟩⟩
      ⟨fun _ => Except.ok "application/json", fun s => Except.ok s,
       fun _ _ _ _ => Except.error "payload signature check failed",
       fun _ _ => Except.error "unused", fun _ => Except.error "unused"⟩
      ⟨[("X-GitHub-Delivery", "d-1"), ("Content-Type", "application/json"),
        ("X-Hub-Signature-256", "sha256=bad")], "payload", false⟩ =
      ⟨Except.error "validating payload: payload signature check failed", []⟩ := by
  rfl

/-- C5 amended: verification and decoding failures — malformed
content-type, failed base64 decode, signature-verification failure,
payload that does not parse as the claimed event kind — make
HandleLambda return an error (surfaced by the Lambda runtime as a
500-equivalent), not a 400 response. -/
theorem verification_decoding_failures_return_internal_error
    (ww : WebhookWorker) (ext : Externals) (req : Request)
    (hd : headerGet req.headers DeliveryIDHeader ≠ "") :
    (∀ e, ext.parseMediaType (headerGet req.headers "Content-Type") = Except.error e →
        HandleLambda ww ext req =
          ⟨Except.error ("parse media type from '" ++
              headerGet req.headers "Content-Type" ++ "': " ++ e), []⟩) ∧
    (∀ ct e, ext.parseMediaType (headerGet req.headers "Content-Type") = Except.ok ct →
        decodedBody ext req = Except.error e →
        HandleLambda ww ext req = ⟨Except.error ("decoding body: " ++ e), []⟩) ∧
    (∀ ct body e, ext.parseMediaType (headerGet req.headers "Content-Type") = Except.ok ct →
        decodedBody ext req = Except.ok body →
        ext.validatePayload ct body (selectSignature req.headers) ww.secretToken =
          Except.error e →
        HandleLambda ww ext req = ⟨Except.error ("validating payload: " ++ e), []⟩) ∧
    (∀ ct body payload e,
        ext.parseMediaType (headerGet req.headers "Content-Type") = Except.ok ct →
        decodedBody ext req = Except.ok body →
        ext.validatePayload ct body (selectSignature req.headers) ww.secretToken =
          Except.ok payload →
        ext.parseWebHook (headerGet req.headers "X-GitHub-Event") payload =
          Except.error e →
        HandleLambda ww ext req = ⟨Except.error ("parsing webhook: " ++ e), []⟩) := by
  refine ⟨?_, ?_, ?_, ?_⟩ <;> intros <;> simp [HandleLambda, hd, *]

theorem verification_decoding_failures_return_internal_error_witness :
    HandleLambda ⟨[], "secret", ⟨"app", "env"⟩⟩
      ⟨fun _ => Except.error "mime: no media type", fun s => Except.ok s,
       fun _ _ _ _ => Except.ok "", fun _ _ => Except.error "unused",
       fun _ => Except.error "unused"⟩
      ⟨[("X-GitHub-Delivery", "d-1")], "payload", false⟩ =
      ⟨Except.error "parse media type from '': mime: no media type", []⟩ :=
  (verification_decoding_failures_return_internal_error _ _ _ (by decide)).1
    "mime: no media type" rfl

/-- C6: a request whose delivery-identifier header is absent is answered
400 "missing delivery ID" for every choice of external collaborators —
in particular before any decoding capability is consulted. -/
theorem missing_delivery_id_short_circuits_400
    (ww : WebhookWorker) (ext : Externals) (req : Request)
    (h : headerGet req.headers DeliveryIDHeader = "") :
    HandleLambda ww ext req = ⟨Except.ok ⟨400, "missing delivery ID"⟩, []⟩ := by
  simp [HandleLambda, h]

theorem missing_delivery_id_short_circuits_400_witness :
    HandleLambda ⟨[], "secret", ⟨"app", "env"⟩⟩
      ⟨fun _ => Except.ok "", fun s => Except.ok s, fun _ _ _ _ => Except.ok "",
       fun _ _ => Except.error "unused", fun _ => Except.error "unused"⟩
      ⟨[("Content-Type", "application/json")], "payload", false⟩ =
      ⟨Except.ok ⟨400, "missing delivery ID"⟩, []⟩ :=
  missing_delivery_id_short_circuits_400 _ _ _ rfl

/-- C7: check-run validation is the ordered first-missing-field scan of
the spec's twelve field paths; any validation failure is answered 400
with the message naming that path; and a fully valid check-run event is
always published — there is no deletion-sentinel skip branch. -/
theorem check_run_validation_order_and_no_skip :
    (∀ e : CheckRunEvent,
        validateCheckRunEvent e =
          (specCheckRunFieldOrder.find? (fun pf => !(pf.2 e))).map
            (fun pf => "nil '" ++ pf.1 ++ "' on check_run event")) ∧
    (∀ (ww : WebhookWorker) (ext : Externals) (d m : String) (e : CheckRunEvent),
        validateCheckRunEvent e = some m →
        handleCheckRunEvent ww ext d e = ⟨Except.ok ⟨400, m⟩, []⟩) ∧
    (∀ (ww : WebhookWorker) (ext : Externals) (d : String) (e : CheckRunEvent)
        (msg : CheckRunMessage),
        validateCheckRunEvent e = none →
        buildCheckRunMessage d e = some msg →
        handleCheckRunEvent ww ext d e = publish ww ext (O5Message.checkRun msg)) := by
  refine ⟨?_, ?_, ?_⟩
  · intro e
    obtain ⟨act, rep, cr⟩ := e
    cases act with
    | none => rfl
    | some a =>
      cases rep with
      | none => rfl
      | some r =>
        obtain ⟨ow, rn⟩ := r
        cases ow with
        | none => rfl
        | some o =>
          obtain ⟨lg, nm⟩ := o
          cases lg with
          | none => rfl
          | some l =>
            cases rn with
            | none => rfl
            | some rname =>
              cases cr with
              | none => rfl
              | some c =>
                obtain ⟨cn, cid, cs⟩ := c
                cases cn with
                | none => rfl
                | some cname =>
                  cases cid with
                  | none => rfl
                  | some cidv =>
                    cases cs with
                    | none => rfl
                    | some s =>
                      obtain ⟨hb, bs, af⟩ := s
                      cases hb with
                      | none => rfl
                      | some hbv =>
                        cases bs with
                        | none => rfl
                        | some bsv =>
                          cases af with
                          | none => rfl
                          | some afv => rfl
  · intro ww ext d m e hv
    simp [handleCheckRunEvent, hv]
  · intro ww ext d e msg hv hb
    simp [handleCheckRunEvent, hv, hb]

theorem check_run_validation_order_and_no_skip_witness :
    handleCheckRunEvent ⟨[⟨"sns", fun _ => none⟩], "secret", ⟨"app", "env"⟩⟩
      ⟨fun _ => Except.ok "", fun s => Except.ok s, fun _ _ _ _ => Except.ok "",
       fun _ _ => Except.error "unused", fun _ => Except.error "unused"⟩
      "d-1"
      ⟨some "created", some ⟨some ⟨some "o", none⟩, some "r"⟩,
       some ⟨some "build", some 7, some ⟨some "main", some "aaa", none⟩⟩⟩ =
      ⟨Except.ok ⟨400, "nil 'check_run.check_suite.after_sha' on check_run event"⟩, []⟩ :=
  check_run_validation_order_and_no_skip.2.1 _ _ _ _ _ rfl

/-- C8: the signature handed to verification is the SHA-256 signature
header whenever that header is non-empty, and the SHA-1 header only
when it is empty; and HandleLambda verifies against exactly that
selected signature. -/
theorem sha256_signature_header_preferred :
    (∀ headers : List (String × String),
        headerGet headers SHA256SignatureHeader ≠ "" →
        selectSignature headers = headerGet headers SHA256SignatureHeader) ∧
    (∀ headers : List (String × String),
        headerGet headers SHA256SignatureHeader = "" →
        selectSignature headers = headerGet headers SHA1SignatureHeader) ∧
    (∀ (ww : WebhookWorker) (ext : Externals) (req : Request),
        HandleLambda ww ext req =
          HandleLambda ww
            { ext with validatePayload := fun ct body _ secret =>
                ext.validatePayload ct body (selectSignature req.headers) secret }
            req) := by
  refine ⟨?_, ?_, ?_⟩
  · intro headers h
    simp [selectSignature, h]
  · intro headers h
    simp [selectSignature, h]
  · intro ww ext req
    rfl

theorem sha256_signature_header_preferred_witness :
    selectSignature
      [("X-Hub-Signature-256", "sha256=good"), ("X-Hub-Signature", "sha1=old")] =
      "sha256=good" :=
  sha256_signature_header_preferred.1 _ (by decide)

/-- C9: a validated, non-deletion push event with an all-succeeding
sink list is answered 200 with a body carrying the derived message id
and one "Published to" line per sink in configuration order, every sink
having been invoked in that order. -/
theorem successful_fanout_reports_each_sink_in_order
    (ww : WebhookWorker) (ext : Externals) (d : String) (e : PushEvent)
    (a : String) (msg : PushMessage) (wire : WireMessage)
    (hv : validatePushEvent e = none)
    (ha : e.after = some a)
    (hne : a ≠ emptyCommit)
    (hb : buildPushMessage d e = some msg)
    (hw : ext.wrapMessage (O5Message.push msg) = Except.ok wire)
    (hok : ∀ q ∈ ww.publishers, q.Publish (stampSource ww wire) = none) :
    handlePushEvent ww ext d e =
      ⟨Except.ok ⟨200, "HOOK OK\n" ++ String.intercalate "\n"
          (("O5 Message ID: " ++ wire.messageId) ::
            ww.publishers.map (fun p => "Published to " ++ p.PublisherID))⟩,
       ww.publishers.map Publisher.PublisherID⟩ := by
  have hloop := publishLoop_all_ok (stampSource ww wire) ww.publishers hok
  have hmid : (stampSource ww wire).messageId = wire.messageId := rfl
  simp [handlePushEvent, hv, ha, hne, hb, publish, hw, hloop, hmid]

theorem successful_fanout_reports_each_sink_in_order_witness :
    handlePushEvent
      ⟨[⟨"sns", fun _ => none⟩, ⟨"bus", fun _ => none⟩], "secret", ⟨"app", "env"⟩⟩
      ⟨fun _ => Except.ok "", fun s => Except.ok s, fun _ _ _ _ => Except.ok "",
       fun _ _ => Except.error "unused",
       fun m => Except.ok ⟨"mid-1", "", "", m⟩⟩
      "d-1"
      ⟨some "refs/heads/main", some "aaa", some "bbb",
       some ⟨some ⟨none, some "o"⟩, some "r"⟩⟩ =
      ⟨Except.ok ⟨200, "HOOK OK\nO5 Message ID: mid-1\nPublished to sns\nPublished to bus"⟩,
       ["sns", "bus"]⟩ :=
  successful_fanout_reports_each_sink_in_order _ _ _ _ "bbb"
    ⟨"d-1", "aaa", "bbb", "refs/heads/main", "r", "o"⟩
    ⟨"mid-1", "", "", O5Message.push ⟨"d-1", "aaa", "bbb", "refs/heads/main", "r", "o"⟩⟩
    rfl rfl (by decide) rfl rfl
    (by intro q hq
        cases hq with
        | head => rfl
        | tail _ h =>
          cases h with
          | head => rfl
          | tail _ h2 => cases h2)

/-- C10: whenever validation reports no error, every field dereferenced
to build the outbound message is present, so message construction never
dereferences a nil pointer: a validated push event has a non-nil after
and a totally-defined PushMessage, and a validated check-run event has a
totally-defined CheckRunMessage. -/
theorem validated_events_never_nil_dereference :
    (∀ (d : String) (e : PushEvent), validatePushEvent e = none →
        e.after.isSome = true ∧ (buildPushMessage d e).isSome = true) ∧
    (∀ (d : String) (e : CheckRunEvent), validateCheckRunEvent e = none →
        (buildCheckRunMessage d e).isSome = true) := by
  constructor
  · intro d e h
    obtain ⟨r, b, a, rp⟩ := e
    cases r with
    | none => exact Option.noConfusion h
    | some rv =>
      cases rp with
      | none => exact Option.noConfusion h
      | some rpv =>
        obtain ⟨ow, rn⟩ := rpv
        cases ow with
        | none => exact Option.noConfusion h
        | some owv =>
          obtain ⟨lg, nm⟩ := owv
          cases nm with
          | none => exact Option.noConfusion h
          | some nmv =>
            cases rn with
            | none => exact Option.noConfusion h
            | some rnv =>
              cases a with
              | none => exact Option.noConfusion h
              | some av =>
                cases b with
                | none => exact Option.noConfusion h
                | some bv => exact ⟨rfl, rfl⟩
  · intro d e h
    obtain ⟨act, rep, cr⟩ := e
    cases act with
    | none => exact Option.noConfusion h
    | some a =>
      cases rep with
      | none => exact Option.noConfusion h
      | some r =>
        obtain ⟨ow, rn⟩ := r
        cases ow with
        | none => exact Option.noConfusion h
        | some o =>
          obtain ⟨lg, nm⟩ := o
          cases lg with
          | none => exact Option.noConfusion h
          | some l =>
            cases rn with
            | none => exact Option.noConfusion h
            | some rname =>
              cases cr with
              | none => exact Option.noConfusion h
              | some c =>
                obtain ⟨cn, cid, cs⟩ := c
                cases cn with
                | none => exact Option.noConfusion h
                | some cname =>
                  cases cid with
                  | none => exact Option.noConfusion h
                  | some cidv =>
                    cases cs with
                    | none => exact Option.noConfusion h
                    | some s =>
                      obtain ⟨hb, bs, af⟩ := s
                      cases hb with
                      | none => exact Option.noConfusion h
                      | some hbv =>
                        cases bs with
                        | none => exact Option.noConfusion h
                        | some bsv =>
                          cases af with
                          | none => exact Option.noConfusion h
                          | some afv => rfl

theorem validated_events_never_nil_dereference_witness :
    (buildPushMessage "d-1"
      ⟨some "refs/heads/main", some "aaa", some "bbb",
       some ⟨some ⟨none, some "o"⟩, some "r"⟩⟩).isSome = true :=
  (validated_events_never_nil_dereference.1 "d-1"
    ⟨some "refs/heads/main", some "aaa", some "bbb",
     some ⟨some ⟨none, some "o"⟩, some "r"⟩⟩ rfl).2

end O5Gh
